import Mathlib

/-!
Verification of the static USB descriptor table in
`src/programmer/descriptors.c` (PIC tools project).

The C file declares nine packed descriptor structures (types coming from
the simba framework's `usb.h`), twelve statically initialized records, and
a NULL-terminated pointer array `usb_device_descriptors` giving the
enumeration order.  Here each C structure becomes a Lean structure, each
record a Lean definition with the same name and the same field values, the
pointer array a list of `Option` values ending in `none` (the NULL
sentinel), and serialization a byte-list encoder following the packed
little-endian layout of the structures.
-/

namespace Pictools

/-- Modelled from the spec: descriptor-type discriminants from the simba
framework's `usb.h`, which is not part of this repository.  The spec fixes
CONFIGURATION = 2 (first two serialized bytes `09 02`); the remaining
values are the standard USB / CDC discriminants the spec names
(DEVICE, STRING, INTERFACE, ENDPOINT, INTERFACE_ASSOCIATION,
CDC-class-specific). -/
def DESCRIPTOR_TYPE_DEVICE : Nat := 1

/-- Configuration descriptor discriminant; the spec fixes its value to 2. -/
def DESCRIPTOR_TYPE_CONFIGURATION : Nat := 2

/-- String descriptor discriminant (standard USB value 3). -/
def DESCRIPTOR_TYPE_STRING : Nat := 3

/-- Interface descriptor discriminant (standard USB value 4). -/
def DESCRIPTOR_TYPE_INTERFACE : Nat := 4

/-- Endpoint descriptor discriminant (standard USB value 5). -/
def DESCRIPTOR_TYPE_ENDPOINT : Nat := 5

/-- Interface association descriptor discriminant (standard USB value 11). -/
def DESCRIPTOR_TYPE_INTERFACE_ASSOCIATION : Nat := 11

/-- CDC class-specific (CS_INTERFACE) discriminant (standard value 0x24). -/
def DESCRIPTOR_TYPE_CDC : Nat := 0x24

/-- Modelled from the spec: class codes from simba's `usb.h`.  The spec
gives bDeviceClass = 0xEF (Miscellaneous). -/
def USB_CLASS_MISCELLANEOUS : Nat := 0xef

/-- CDC Control interface class code (standard USB value 2). -/
def USB_CLASS_CDC_CONTROL : Nat := 2

/-- CDC Data interface class code (standard USB value 0x0a). -/
def USB_CLASS_CDC_DATA : Nat := 0x0a

/-- Modelled from the spec: bus-powered configuration attribute bitmask
from simba's `usb.h` (standard USB value 0x80). -/
def CONFIGURATION_ATTRIBUTES_BUS_POWERED : Nat := 0x80

/-- Interrupt transfer-type endpoint attribute (standard USB value 3). -/
def ENDPOINT_ATTRIBUTES_TRANSFER_TYPE_INTERRUPT : Nat := 3

/-- Bulk transfer-type endpoint attribute (standard USB value 2). -/
def ENDPOINT_ATTRIBUTES_TRANSFER_TYPE_BULK : Nat := 2

/-- Modelled from the spec: the vendor id comes from the build
configuration (`CONFIG_USB_DEVICE_VID`), which is not part of this
repository and whose value the spec does not fix; no claim depends on it. -/
def CONFIG_USB_DEVICE_VID : Nat := 0

/-- Modelled from the spec: the product id comes from the build
configuration (`CONFIG_USB_DEVICE_PID`), not part of this repository; no
claim depends on its value. -/
def CONFIG_USB_DEVICE_PID : Nat := 0

/-- Modelled from the spec: packed byte sizes of the simba descriptor
structures (`sizeof` in the C file).  The spec fixes the configuration
group sizes: configuration 9, IAD 8, interface 9, CDC header 5, CDC ACM 4,
CDC union 5, call management 5, endpoint 7; the standard device descriptor
is 18 bytes. -/
def sizeof_usb_descriptor_device_t : Nat := 18

/-- Packed byte size of `struct usb_descriptor_configuration_t`. -/
def sizeof_usb_descriptor_configuration_t : Nat := 9

/-- Packed byte size of `struct usb_descriptor_interface_association_t`. -/
def sizeof_usb_descriptor_interface_association_t : Nat := 8

/-- Packed byte size of `struct usb_descriptor_interface_t`. -/
def sizeof_usb_descriptor_interface_t : Nat := 9

/-- Packed byte size of `struct usb_descriptor_cdc_header_t`. -/
def sizeof_usb_descriptor_cdc_header_t : Nat := 5

/-- Packed byte size of `struct usb_descriptor_cdc_acm_t`. -/
def sizeof_usb_descriptor_cdc_acm_t : Nat := 4

/-- Packed byte size of `struct usb_descriptor_cdc_union_t`. -/
def sizeof_usb_descriptor_cdc_union_t : Nat := 5

/-- Packed byte size of `struct usb_descriptor_cdc_call_management_t`. -/
def sizeof_usb_descriptor_cdc_call_management_t : Nat := 5

/-- Packed byte size of `struct usb_descriptor_endpoint_t`. -/
def sizeof_usb_descriptor_endpoint_t : Nat := 7

/-- `struct usb_descriptor_device_t`: one-byte fields except the four
little-endian 16-bit fields `bcd_usb`, `id_vendor`, `id_product`,
`bcd_device`. -/
structure usb_descriptor_device_t where
  length : Nat
  descriptor_type : Nat
  bcd_usb : Nat
  device_class : Nat
  device_subclass : Nat
  device_protocol : Nat
  max_packet_size_0 : Nat
  id_vendor : Nat
  id_product : Nat
  bcd_device : Nat
  manufacturer : Nat
  product : Nat
  serial_number : Nat
  num_configurations : Nat
  deriving DecidableEq

/-- `struct usb_descriptor_configuration_t`: one-byte fields except the
little-endian 16-bit `total_length`. -/
structure usb_descriptor_configuration_t where
  length : Nat
  descriptor_type : Nat
  total_length : Nat
  num_interfaces : Nat
  configuration_value : Nat
  configuration : Nat
  configuration_attributes : Nat
  max_power : Nat
  deriving DecidableEq

/-- `struct usb_descriptor_interface_association_t`: eight one-byte
fields. -/
structure usb_descriptor_interface_association_t where
  length : Nat
  descriptor_type : Nat
  first_interface : Nat
  interface_count : Nat
  function_class : Nat
  function_subclass : Nat
  function_protocol : Nat
  function : Nat
  deriving DecidableEq

/-- `struct usb_descriptor_interface_t`: nine one-byte fields. -/
structure usb_descriptor_interface_t where
  length : Nat
  descriptor_type : Nat
  interface_number : Nat
  alternate_setting : Nat
  num_endpoints : Nat
  interface_class : Nat
  interface_subclass : Nat
  interface_protocol : Nat
  interface : Nat
  deriving DecidableEq

/-- `struct usb_descriptor_cdc_header_t`: three one-byte fields plus the
little-endian 16-bit `bcd`. -/
structure usb_descriptor_cdc_header_t where
  length : Nat
  descriptor_type : Nat
  sub_type : Nat
  bcd : Nat
  deriving DecidableEq

/-- `struct usb_descriptor_cdc_acm_t`: four one-byte fields. -/
structure usb_descriptor_cdc_acm_t where
  length : Nat
  descriptor_type : Nat
  sub_type : Nat
  capabilities : Nat
  deriving DecidableEq

/-- `struct usb_descriptor_cdc_union_t`: five one-byte fields. -/
structure usb_descriptor_cdc_union_t where
  length : Nat
  descriptor_type : Nat
  sub_type : Nat
  master_interface : Nat
  slave_interface : Nat
  deriving DecidableEq

/-- `struct usb_descriptor_cdc_call_management_t`: five one-byte fields. -/
structure usb_descriptor_cdc_call_management_t where
  length : Nat
  descriptor_type : Nat
  sub_type : Nat
  capabilities : Nat
  data_interface : Nat
  deriving DecidableEq

/-- `struct usb_descriptor_endpoint_t`: one-byte fields except the
little-endian 16-bit `max_packet_size`. -/
structure usb_descriptor_endpoint_t where
  length : Nat
  descriptor_type : Nat
  endpoint_address : Nat
  attributes : Nat
  max_packet_size : Nat
  interval : Nat
  deriving DecidableEq

/-- `union usb_descriptor_t`: the tagged sum of the nine descriptor record
shapes the C file stores behind its opaque pointers. -/
inductive usb_descriptor_t where
  | device (d : usb_descriptor_device_t)
  | configuration (d : usb_descriptor_configuration_t)
  | interface_association (d : usb_descriptor_interface_association_t)
  | interface (d : usb_descriptor_interface_t)
  | cdc_header (d : usb_descriptor_cdc_header_t)
  | cdc_acm (d : usb_descriptor_cdc_acm_t)
  | cdc_union (d : usb_descriptor_cdc_union_t)
  | cdc_call_management (d : usb_descriptor_cdc_call_management_t)
  | endpoint (d : usb_descriptor_endpoint_t)
  deriving DecidableEq

/-- The two bytes of a little-endian 16-bit field. -/
def le16 (v : Nat) : List Nat :=
  [v % 256, v / 256 % 256]

/-- Byte encoding of a descriptor record: the packed in-memory layout of
the corresponding C structure, fields in declaration order, multi-byte
fields little-endian. -/
def usb_descriptor_t.encode : usb_descriptor_t → List Nat
  | .device d =>
      [d.length, d.descriptor_type] ++ le16 d.bcd_usb ++
      [d.device_class, d.device_subclass, d.device_protocol,
       d.max_packet_size_0] ++
      le16 d.id_vendor ++ le16 d.id_product ++ le16 d.bcd_device ++
      [d.manufacturer, d.product, d.serial_number, d.num_configurations]
  | .configuration d =>
      [d.length, d.descriptor_type] ++ le16 d.total_length ++
      [d.num_interfaces, d.configuration_value, d.configuration,
       d.configuration_attributes, d.max_power]
  | .interface_association d =>
      [d.length, d.descriptor_type, d.first_interface, d.interface_count,
       d.function_class, d.function_subclass, d.function_protocol,
       d.function]
  | .interface d =>
      [d.length, d.descriptor_type, d.interface_number,
       d.alternate_setting, d.num_endpoints, d.interface_class,
       d.interface_subclass, d.interface_protocol, d.interface]
  | .cdc_header d =>
      [d.length, d.descriptor_type, d.sub_type] ++ le16 d.bcd
  | .cdc_acm d =>
      [d.length, d.descriptor_type, d.sub_type, d.capabilities]
  | .cdc_union d =>
      [d.length, d.descriptor_type, d.sub_type, d.master_interface,
       d.slave_interface]
  | .cdc_call_management d =>
      [d.length, d.descriptor_type, d.sub_type, d.capabilities,
       d.data_interface]
  | .endpoint d =>
      [d.length, d.descriptor_type, d.endpoint_address, d.attributes] ++
      le16 d.max_packet_size ++ [d.interval]

/-- The shared `length` header field of a record. -/
def usb_descriptor_t.lengthField : usb_descriptor_t → Nat
  | .device d => d.length
  | .configuration d => d.length
  | .interface_association d => d.length
  | .interface d => d.length
  | .cdc_header d => d.length
  | .cdc_acm d => d.length
  | .cdc_union d => d.length
  | .cdc_call_management d => d.length
  | .endpoint d => d.length

/-- The shared `descriptor_type` header field of a record. -/
def usb_descriptor_t.typeField : usb_descriptor_t → Nat
  | .device d => d.descriptor_type
  | .configuration d => d.descriptor_type
  | .interface_association d => d.descriptor_type
  | .interface d => d.descriptor_type
  | .cdc_header d => d.descriptor_type
  | .cdc_acm d => d.descriptor_type
  | .cdc_union d => d.descriptor_type
  | .cdc_call_management d => d.descriptor_type
  | .endpoint d => d.descriptor_type

/-- `device_descriptor` (descriptors.c lines 31-47). -/
def device_descriptor : usb_descriptor_device_t :=
  { length := sizeof_usb_descriptor_device_t,
    descriptor_type := DESCRIPTOR_TYPE_DEVICE,
    bcd_usb := 0x0200,
    device_class := USB_CLASS_MISCELLANEOUS,
    device_subclass := 2,
    device_protocol := 1,
    max_packet_size_0 := 64,
    id_vendor := CONFIG_USB_DEVICE_VID,
    id_product := CONFIG_USB_DEVICE_PID,
    bcd_device := 0x0100,
    manufacturer := 0,
    product := 0,
    serial_number := 0,
    num_configurations := 1 }

/-- `configuration_descriptor` (descriptors.c lines 49-59). -/
def configuration_descriptor : usb_descriptor_configuration_t :=
  { length := sizeof_usb_descriptor_configuration_t,
    descriptor_type := DESCRIPTOR_TYPE_CONFIGURATION,
    total_length := 75,
    num_interfaces := 2,
    configuration_value := 1,
    configuration := 0,
    configuration_attributes := CONFIGURATION_ATTRIBUTES_BUS_POWERED,
    max_power := 250 }

/-- `inferface_association_0_descriptor` (descriptors.c lines 61-71; the
source's spelling is kept). -/
def inferface_association_0_descriptor :
    usb_descriptor_interface_association_t :=
  { length := sizeof_usb_descriptor_interface_association_t,
    descriptor_type := DESCRIPTOR_TYPE_INTERFACE_ASSOCIATION,
    first_interface := 0,
    interface_count := 2,
    function_class := 2,
    function_subclass := 2,
    function_protocol := 1,
    function := 0 }

/-- `inferface_0_descriptor` (descriptors.c lines 73-84). -/
def inferface_0_descriptor : usb_descriptor_interface_t :=
  { length := sizeof_usb_descriptor_interface_t,
    descriptor_type := DESCRIPTOR_TYPE_INTERFACE,
    interface_number := 0,
    alternate_setting := 0,
    num_endpoints := 1,
    interface_class := USB_CLASS_CDC_CONTROL,
    interface_subclass := 2,
    interface_protocol := 0,
    interface := 0 }

/-- `cdc_header_descriptor` (descriptors.c lines 86-92). -/
def cdc_header_descriptor : usb_descriptor_cdc_header_t :=
  { length := sizeof_usb_descriptor_cdc_header_t,
    descriptor_type := DESCRIPTOR_TYPE_CDC,
    sub_type := 0,
    bcd := 0x1001 }

/-- `cdc_acm_descriptor` (descriptors.c lines 94-100). -/
def cdc_acm_descriptor : usb_descriptor_cdc_acm_t :=
  { length := sizeof_usb_descriptor_cdc_acm_t,
    descriptor_type := DESCRIPTOR_TYPE_CDC,
    sub_type := 2,
    capabilities := 0x06 }

/-- `cdc_union_0_descriptor` (descriptors.c lines 102-109). -/
def cdc_union_0_descriptor : usb_descriptor_cdc_union_t :=
  { length := sizeof_usb_descriptor_cdc_union_t,
    descriptor_type := DESCRIPTOR_TYPE_CDC,
    sub_type := 6,
    master_interface := 0,
    slave_interface := 1 }

/-- `cdc_call_management_0_descriptor` (descriptors.c lines 111-118). -/
def cdc_call_management_0_descriptor :
    usb_descriptor_cdc_call_management_t :=
  { length := sizeof_usb_descriptor_cdc_call_management_t,
    descriptor_type := DESCRIPTOR_TYPE_CDC,
    sub_type := 1,
    capabilities := 0x00,
    data_interface := 1 }

/-- `endpoint_1_descriptor` (descriptors.c lines 120-128): EP 1 IN. -/
def endpoint_1_descriptor : usb_descriptor_endpoint_t :=
  { length := sizeof_usb_descriptor_endpoint_t,
    descriptor_type := DESCRIPTOR_TYPE_ENDPOINT,
    endpoint_address := 0x81,
    attributes := ENDPOINT_ATTRIBUTES_TRANSFER_TYPE_INTERRUPT,
    max_packet_size := 16,
    interval := 64 }

/-- `inferface_1_descriptor` (descriptors.c lines 130-141). -/
def inferface_1_descriptor : usb_descriptor_interface_t :=
  { length := sizeof_usb_descriptor_interface_t,
    descriptor_type := DESCRIPTOR_TYPE_INTERFACE,
    interface_number := 1,
    alternate_setting := 0,
    num_endpoints := 2,
    interface_class := USB_CLASS_CDC_DATA,
    interface_subclass := 0,
    interface_protocol := 0,
    interface := 0 }

/-- `endpoint_2_descriptor` (descriptors.c lines 143-151): EP 2 OUT. -/
def endpoint_2_descriptor : usb_descriptor_endpoint_t :=
  { length := sizeof_usb_descriptor_endpoint_t,
    descriptor_type := DESCRIPTOR_TYPE_ENDPOINT,
    endpoint_address := 0x02,
    attributes := ENDPOINT_ATTRIBUTES_TRANSFER_TYPE_BULK,
    max_packet_size := 512,
    interval := 128 }

/-- `endpoint_3_descriptor` (descriptors.c lines 153-161): EP 3 IN. -/
def endpoint_3_descriptor : usb_descriptor_endpoint_t :=
  { length := sizeof_usb_descriptor_endpoint_t,
    descriptor_type := DESCRIPTOR_TYPE_ENDPOINT,
    endpoint_address := 0x83,
    attributes := ENDPOINT_ATTRIBUTES_TRANSFER_TYPE_BULK,
    max_packet_size := 512,
    interval := 128 }

/-- `usb_device_descriptors` (descriptors.c lines 166-181): the pointer
array, with `none` standing for the NULL sentinel. -/
def usb_device_descriptors : List (Option usb_descriptor_t) :=
  [some (.device device_descriptor),
   some (.configuration configuration_descriptor),
   some (.interface_association inferface_association_0_descriptor),
   some (.interface inferface_0_descriptor),
   some (.cdc_header cdc_header_descriptor),
   some (.cdc_acm cdc_acm_descriptor),
   some (.cdc_union cdc_union_0_descriptor),
   some (.cdc_call_management cdc_call_management_0_descriptor),
   some (.endpoint endpoint_1_descriptor),
   some (.interface inferface_1_descriptor),
   some (.endpoint endpoint_2_descriptor),
   some (.endpoint endpoint_3_descriptor),
   none]

/-- The consumer's traversal loop: walk the pointer array from the start,
collecting records, and stop at the first NULL sentinel. -/
def usbTraverse : List (Option usb_descriptor_t) → List usb_descriptor_t
  | [] => []
  | none :: _ => []
  | some d :: rest => d :: usbTraverse rest

/-- The records the traversal yields, in table order. -/
def usbTableRecords : List usb_descriptor_t :=
  usbTraverse usb_device_descriptors

/-- The records transmitted in the GET_DESCRIPTOR(CONFIGURATION) group:
every table record except the device descriptor, which is returned via a
separate control request. -/
def configGroup : List usb_descriptor_t :=
  usbTableRecords.filter (fun d =>
    match d with
    | .device _ => false
    | _ => true)

/-- Serialization of the configuration group: concatenation of the
records' byte encodings in table order. -/
def serializeConfigGroup : List Nat :=
  (configGroup.map usb_descriptor_t.encode).flatten

/-- The endpoint records of the table, in table order. -/
def endpointRecords : List usb_descriptor_endpoint_t :=
  usbTableRecords.filterMap (fun d =>
    match d with
    | .endpoint e => some e
    | _ => none)

/-- Split an endpoint address into its (endpoint number, direction) pair:
the direction is the high bit (0x80 = IN) and the endpoint number is the
low bits. -/
def endpointNumberDirection (a : Nat) : Nat × Nat :=
  (a % 0x80, a / 0x80)

/-- For each interface descriptor in a record list, the number of endpoint
descriptors following it up to the next interface descriptor or the end of
the list (the table-adjacency association of endpoints to interfaces). -/
def interfaceAdjacency :
    List usb_descriptor_t → List (usb_descriptor_interface_t × Nat)
  | [] => []
  | d :: rest =>
    match d with
    | .interface i =>
        (i,
         (rest.takeWhile (fun e =>
            match e with
            | .interface _ => false
            | _ => true)).countP (fun e =>
            match e with
            | .endpoint _ => true
            | _ => false)) :: interfaceAdjacency rest
    | _ => interfaceAdjacency rest

/-- BCD encoding of a version number `major.minor` as USB descriptors use
it (two BCD digits for each part): version 2.00 is 0x0200, version 1.10 is
0x0110. -/
def bcdVersion (major minor : Nat) : Nat :=
  major / 10 * 4096 + major % 10 * 256 + minor / 10 * 16 + minor % 10

/-- Claim C1: the configuration descriptor's `total_length` field equals
the sum of the byte sizes of the records in the GET_DESCRIPTOR group,
9 + 8 + 9 + 5 + 4 + 5 + 5 + 7 + 9 + 7 + 7 = 75, matching the declared
value 75. -/
theorem total_length_equals_group_sum :
    configuration_descriptor.total_length = 75 ∧
    configGroup.map (fun d => d.encode.length) =
      [9, 8, 9, 5, 4, 5, 5, 7, 9, 7, 7] ∧
    (configGroup.map (fun d => d.encode.length)).sum = 75 ∧
    configuration_descriptor.total_length =
      (configGroup.map (fun d => d.encode.length)).sum := by
  decide

/-- Claim C2: serializing the table's records in pointer-array order,
excluding the device descriptor, yields a 75-byte stream starting with
0x09 0x02, and the group records appear in the order configuration, IAD,
interface 0, CDC header, CDC ACM, CDC union, CDC call management,
endpoint 1, interface 1, endpoint 2, endpoint 3. -/
theorem serialize_group_stream :
    serializeConfigGroup.length = 75 ∧
    serializeConfigGroup.take 2 = [0x09, 0x02] ∧
    configGroup =
      [.configuration configuration_descriptor,
       .interface_association inferface_association_0_descriptor,
       .interface inferface_0_descriptor,
       .cdc_header cdc_header_descriptor,
       .cdc_acm cdc_acm_descriptor,
       .cdc_union cdc_union_0_descriptor,
       .cdc_call_management cdc_call_management_0_descriptor,
       .endpoint endpoint_1_descriptor,
       .interface inferface_1_descriptor,
       .endpoint endpoint_2_descriptor,
       .endpoint endpoint_3_descriptor] := by
  decide

/-- Claim C3: for every record in the table, the `length` header field
equals the byte size of the record's concrete encoded layout. -/
theorem length_field_roundtrip :
    ∀ d ∈ usbTableRecords, d.encode.length = d.lengthField := by
  decide

/-- Witness for `length_field_roundtrip` at the device descriptor. -/
theorem length_field_roundtrip_witness :
    (usb_descriptor_t.device device_descriptor).encode.length =
      (usb_descriptor_t.device device_descriptor).lengthField :=
  length_field_roundtrip (usb_descriptor_t.device device_descriptor)
    (by decide)

/-- Claim C4, counterexample: the CDC header's `bcd` field is 0x1001,
which is not `bcdVersion 1 10 = 0x0110`, the BCD encoding of version
1.10. -/
theorem cdc_bcd_not_version_1_10 :
    cdc_header_descriptor.bcd ≠ bcdVersion 1 10 := by
  decide

/-- Claim C4, amended: the CDC header's `bcd` field holds 0x1001, the
byte-swapped form of 0x0110 (the BCD encoding of version 1.10), not the
BCD encoding of version 1.10 itself. -/
theorem cdc_bcd_value_byte_swapped :
    cdc_header_descriptor.bcd = 0x1001 ∧
    le16 cdc_header_descriptor.bcd = (le16 (bcdVersion 1 10)).reverse := by
  decide

/-- Claim C5: the union descriptor's `master_interface` (0) and
`slave_interface` (1) and the call-management descriptor's
`data_interface` (1) each equal the `interface_number` of an interface
descriptor present in the table. -/
theorem cdc_interface_references_resolve :
    cdc_union_0_descriptor.master_interface = 0 ∧
    cdc_union_0_descriptor.slave_interface = 1 ∧
    cdc_call_management_0_descriptor.data_interface = 1 ∧
    (∃ i, usb_descriptor_t.interface i ∈ usbTableRecords ∧
       i.interface_number = cdc_union_0_descriptor.master_interface) ∧
    (∃ i, usb_descriptor_t.interface i ∈ usbTableRecords ∧
       i.interface_number = cdc_union_0_descriptor.slave_interface) ∧
    (∃ i, usb_descriptor_t.interface i ∈ usbTableRecords ∧
       i.interface_number =
         cdc_call_management_0_descriptor.data_interface) := by
  refine ⟨rfl, rfl, rfl,
    ⟨inferface_0_descriptor, by decide, rfl⟩,
    ⟨inferface_1_descriptor, by decide, rfl⟩,
    ⟨inferface_1_descriptor, by decide, rfl⟩⟩

/-- Claim C6: no two endpoint descriptors share an (endpoint number,
direction) pair, and the endpoint addresses present in the table are
exactly 0x81, 0x02, 0x83. -/
theorem endpoint_addresses_distinct :
    endpointRecords.map (fun e => e.endpoint_address) =
      [0x81, 0x02, 0x83] ∧
    (endpointRecords.map (fun e =>
       endpointNumberDirection e.endpoint_address)).Pairwise (· ≠ ·) := by
  decide

/-- Claim C7: each interface descriptor's `num_endpoints` equals the
number of endpoint descriptors following it in table order up to the next
interface descriptor or end of table: interface 0 declares 1 and is
followed by one endpoint, interface 1 declares 2 and is followed by
two. -/
theorem num_endpoints_matches_adjacency :
    interfaceAdjacency usbTableRecords =
      [(inferface_0_descriptor, 1), (inferface_1_descriptor, 2)] ∧
    inferface_0_descriptor.num_endpoints = 1 ∧
    inferface_1_descriptor.num_endpoints = 2 ∧
    (interfaceAdjacency usbTableRecords).all
      (fun p => p.1.num_endpoints == p.2) = true := by
  decide

/-- Claim C8: the pointer array holds exactly 12 non-null entries followed
by the NULL sentinel, the traversal yields those 12 records and stops at
the sentinel, and a second traversal yields the identical sequence. -/
theorem traversal_twelve_then_sentinel :
    (usb_device_descriptors.take 12).all Option.isSome = true ∧
    usb_device_descriptors[12]? = some none ∧
    usbTableRecords.length = 12 ∧
    usbTraverse usb_device_descriptors =
      usbTraverse usb_device_descriptors := by
  decide

/-- Claim C9: the device descriptor's `manufacturer`, `product` and
`serial_number` string indices are all 0, its `bcd_device` is 0x0100, and
no record in the table carries the string-descriptor type tag. -/
theorem no_string_descriptors :
    device_descriptor.manufacturer = 0 ∧
    device_descriptor.product = 0 ∧
    device_descriptor.serial_number = 0 ∧
    device_descriptor.bcd_device = 0x0100 ∧
    (usbTableRecords.map usb_descriptor_t.typeField).all
      (fun t => t != DESCRIPTOR_TYPE_STRING) = true := by
  decide

/-- Claim C10: the four CDC functional descriptors all carry the
DESCRIPTOR_TYPE_CDC tag and their `sub_type` values 0 (header),
1 (call management), 2 (ACM), 6 (union) are pairwise distinct. -/
theorem cdc_sub_types_distinct :
    cdc_header_descriptor.descriptor_type = DESCRIPTOR_TYPE_CDC ∧
    cdc_call_management_0_descriptor.descriptor_type =
      DESCRIPTOR_TYPE_CDC ∧
    cdc_acm_descriptor.descriptor_type = DESCRIPTOR_TYPE_CDC ∧
    cdc_union_0_descriptor.descriptor_type = DESCRIPTOR_TYPE_CDC ∧
    [cdc_header_descriptor.sub_type,
     cdc_call_management_0_descriptor.sub_type,
     cdc_acm_descriptor.sub_type,
     cdc_union_0_descriptor.sub_type].Pairwise (· ≠ ·) ∧
    cdc_header_descriptor.sub_type = 0 ∧
    cdc_call_management_0_descriptor.sub_type = 1 ∧
    cdc_acm_descriptor.sub_type = 2 ∧
    cdc_union_0_descriptor.sub_type = 6 := by
  decide

end Pictools
